import Mathlib

/-!
Verification development for the openclaw-vscode protocol engine.

This file gives a shallow embedding, in Lean, of the parts of the
implementation that the verified properties are about:

* `src/gateway/a2uiV08.ts` — the freeform-to-structured UI graph converter
  (`convertJsonlToV08`, `convertMessagesToV08`, `convertOneMessage`,
  `extractComponents`, `tableToV08`, `progressToV08`, `codeBlockToV08`,
  `makeV08Component`, `wrapValue`, `isV08Message`, `nextId`);
* the `MessageRouter` (sequence gating and sink dispatch, `route` /
  `resetSequence`);
* the `GatewayClient` connection session (state change notification,
  reconnect backoff, command correlation, `disconnect`).

JSON values are modelled by the inductive `JVal`.  JavaScript exceptions
(`TypeError` from calling `.map` on a non-array, from the `in` operator on a
primitive, from a property access on `null`) are modelled with `Except JsErr`.
JavaScript numbers are modelled by `Int`; the one place where the code does
float arithmetic (`progressToV08`) is approximated over `Int` and carries a
comment — no verified claim depends on it.  The module-global id counter of
`a2uiV08.ts` (reset at the start of each conversion batch) is threaded
explicitly as an `IdState`.  Fire-and-forget diagnostic logging (`_log`) has
no observable effect on the data flow and is omitted.
-/

/-- Model of a parsed JSON value (result of `JSON.parse`). -/
inductive JVal where
  | jnull
  | jbool (b : Bool)
  | jnum (n : Int)
  | jstr (s : String)
  | jarr (xs : List JVal)
  | jobj (fields : List (String × JVal))

/-- JavaScript runtime exceptions surfaced by the converter. -/
inductive JsErr where
  | typeError
deriving DecidableEq

/-- Ordered key lookup in an object's field list (JS property access on an
object: first binding wins; JS objects cannot have duplicate keys). -/
def jlookup (k : String) : List (String × JVal) → Option JVal
  | [] => none
  | (k', v) :: rest => if k' = k then some v else jlookup k rest

theorem jlookup_sizeOf_lt {k : String} :
    ∀ {l : List (String × JVal)} {v : JVal}, jlookup k l = some v → sizeOf v < sizeOf l := by
  intro l
  induction l with
  | nil => intro v h; simp [jlookup] at h
  | cons p rest ih =>
    intro v h
    obtain ⟨k', v'⟩ := p
    simp only [jlookup] at h
    split at h
    · cases h
      simp only [List.cons.sizeOf_spec, Prod.mk.sizeOf_spec]
      omega
    · have := ih h
      simp only [List.cons.sizeOf_spec]
      omega

mutual

/-- JS `String(v)` coercion for a parsed JSON value. -/
def jToString : JVal → String
  | .jnull => "null"
  | .jbool b => cond b "true" "false"
  | .jnum n => toString n
  | .jstr s => s
  | .jobj _ => "[object Object]"
  | .jarr xs => String.intercalate "," (jToStringArr xs)

/-- Elements of `Array.prototype.toString` (`join(",")`): `null`/`undefined`
render as the empty string inside an array. -/
def jToStringArr : List JVal → List String
  | [] => []
  | .jnull :: rest => "" :: jToStringArr rest
  | v :: rest => jToString v :: jToStringArr rest

end

mutual

/-- Minimal model of `JSON.stringify` (string escaping is limited to
backslash and quote). -/
def jStringify : JVal → String
  | .jnull => "null"
  | .jbool b => cond b "true" "false"
  | .jnum n => toString n
  | .jstr s => "\"" ++ (s.replace "\\" "\\\\").replace "\"" "\\\"" ++ "\""
  | .jarr xs => "[" ++ String.intercalate "," (jStringifyArr xs) ++ "]"
  | .jobj fs => "\x7b" ++ String.intercalate "," (jStringifyFields fs) ++ "\x7d"

def jStringifyArr : List JVal → List String
  | [] => []
  | v :: rest => jStringify v :: jStringifyArr rest

def jStringifyFields : List (String × JVal) → List String
  | [] => []
  | (k, v) :: rest => ("\"" ++ k ++ "\":" ++ jStringify v) :: jStringifyFields rest

end

/-- JS truthiness of a value (`undefined` is represented by `none` at call
sites and handled there). -/
def jsTruthy : JVal → Bool
  | .jnull => false
  | .jbool b => b
  | .jnum n => ¬(n = 0)
  | .jstr s => ¬(s = "")
  | .jarr _ => true
  | .jobj _ => true

/-- Truthiness of an optional value: a missing property (`undefined`) is
falsy. -/
def jsTruthyOpt : Option JVal → Bool
  | none => false
  | some v => jsTruthy v

/-- Silent JS property access `v.k` where the caller guarantees `v` is not
`null`.  Primitives have no own string-keyed properties used by this code, so
they yield `undefined` (`none`); arrays only have index keys. -/
def jsPropD (v : JVal) (k : String) : Option JVal :=
  match v with
  | .jobj fields => jlookup k fields
  | _ => none

/-- JS property access `v.k` that raises `TypeError` when `v` is `null`
(property access on `null`). -/
def jsPropE (v : JVal) (k : String) : Except JsErr (Option JVal) :=
  match v with
  | .jnull => .error .typeError
  | .jobj fields => .ok (jlookup k fields)
  | _ => .ok none

/-- Optional chaining `v?.k` applied to an optional value: `null`/`undefined`
short-circuit to `undefined`. -/
def optChainProp (v : Option JVal) (k : String) : Option JVal :=
  match v with
  | none => none
  | some .jnull => none
  | some (.jobj fields) => jlookup k fields
  | some _ => none

/-- First operand of an `a ?? b ?? ...` chain that is neither `null` nor
`undefined`. -/
def firstNonNullish : List (Option JVal) → Option JVal
  | [] => none
  | none :: rest => firstNonNullish rest
  | some .jnull :: rest => firstNonNullish rest
  | some v :: _ => some v

/-! ## `src/gateway/a2uiV08.ts` — the UI graph converter -/

/-- The four structured v0.8 action keys (`V08_ACTION_KEYS`). -/
def V08_ACTION_KEYS : List String := ["surfaceUpdate", "beginRendering", "dataModelUpdate", "deleteSurface"]

/-- `isV08Message`: `V08_ACTION_KEYS.some((key) => key in obj)`.
The JS `in` operator raises `TypeError` on a primitive operand; on an array
none of the four keys is present. -/
def isV08Message : JVal → Except JsErr Bool
  | .jobj fields => .ok (V08_ACTION_KEYS.any (fun k => (jlookup k fields).isSome))
  | .jarr _ => .ok false
  | _ => .error .typeError

/-- `wrapValue`: wrap scalar leaves, pass non-scalars through. -/
def wrapValue : JVal → JVal
  | .jnull => .jobj [("literalString", .jstr "")]
  | .jstr s => .jobj [("literalString", .jstr s)]
  | .jnum n => .jobj [("literalNumber", .jnum n)]
  | .jbool b => .jobj [("literalBoolean", .jbool b)]
  | v => v

/-- The module-global `idCounter`, threaded explicitly (it is reset to 0 at
the start of every conversion batch). -/
abbrev IdState := Nat

/-- `nextId(prefix = "c")`: returns `` `${prefix}_${++idCounter}` ``. -/
def nextId (pfx : String) (st : IdState) : String × IdState :=
  (pfx ++ "_" ++ toString (st + 1), st + 1)

/-- `makeV08Component`: copy the properties except `type`/`id`/`children`,
wrapping each value; append an `explicitList` children property when child
ids are present.  The result is the JSON `{id, component: {TypeName: props}}`. -/
def makeV08Component (id : String) (typeName : String)
    (props : List (String × JVal)) (childIds : List String) : JVal :=
  let wrapped := (props.filter
      (fun kv => ¬(kv.1 = "type" ∨ kv.1 = "id" ∨ kv.1 = "children"))).map
      (fun kv => (kv.1, wrapValue kv.2))
  let wrapped := if childIds.isEmpty then wrapped
    else wrapped ++ [("children", .jobj [("explicitList", .jarr (childIds.map JVal.jstr))])]
  .jobj [("id", .jstr id), ("component", .jobj [(typeName, .jobj wrapped)])]

/-- `(value ?? []) as unknown[]` followed by `.map`: `null`/`undefined`
default to `[]`; `.map` on any other non-array raises `TypeError`. -/
def jsCastMapArray : Option JVal → Except JsErr (List JVal)
  | none => .ok []
  | some .jnull => .ok []
  | some (.jarr xs) => .ok xs
  | some _ => .error .typeError

/-- `(value ?? []) as unknown[]` followed by `for..of`: like
`jsCastMapArray`, except that a string is iterable (per character). -/
def jsCastForOf : Option JVal → Except JsErr (List JVal)
  | none => .ok []
  | some .jnull => .ok []
  | some (.jarr xs) => .ok xs
  | some (.jstr s) => .ok (s.data.map (fun c => .jstr (String.mk [c])))
  | some _ => .error .typeError

/-- Column label: a string column is its own label; an object column (arrays
included — `typeof [] === "object"`) resolves `label`/`title`/`header`/
`name`/`key`, else `""`; anything else is stringified. -/
def colLabelOf (c : JVal) : String :=
  match c with
  | .jstr s => s
  | .jobj fields =>
    jToString ((firstNonNullish [jlookup "label" fields, jlookup "title" fields,
      jlookup "header" fields, jlookup "name" fields, jlookup "key" fields]).getD (.jstr ""))
  | .jarr _ => jToString ((firstNonNullish []).getD (.jstr ""))
  | v => jToString v

/-- `typeof v === "object"` (true for objects, arrays and `null`). -/
def jsTypeofObject : JVal → Bool
  | .jobj _ => true
  | .jarr _ => true
  | .jnull => true
  | _ => false

/-- `rawCols.map((c) => String((c as Record<string, unknown>).key ?? ""))` —
the property access raises on a `null` element. -/
def tableColKeys : List JVal → Except JsErr (List String)
  | [] => .ok []
  | c :: rest => do
    let k ← jsPropE c "key"
    let ks ← tableColKeys rest
    .ok (jToString ((firstNonNullish [k]).getD (.jstr "")) :: ks)

/-- Cell texts of one table row (`tableToV08`, data-row loop body). -/
def tableRowCells (rawCols : List JVal) (row : JVal) : Except JsErr (List String) :=
  match row with
  | .jarr cells => .ok (cells.map (fun v => jToString ((firstNonNullish [some v]).getD (.jstr ""))))
  | .jobj fields =>
    match rawCols with
    | c0 :: _ =>
      if jsTypeofObject c0 then do
        let colKeys ← tableColKeys rawCols
        .ok (colKeys.map (fun k => jToString ((firstNonNullish [jlookup k fields]).getD (.jstr ""))))
      else
        .ok (fields.map (fun kv => jToString ((firstNonNullish [some kv.2]).getD (.jstr ""))))
    | [] =>
      .ok (fields.map (fun kv => jToString ((firstNonNullish [some kv.2]).getD (.jstr ""))))
  | v => .ok [jToString v]

/-- The data-row loop of `tableToV08`: one `Text` component per row. -/
def tableRowsLoop (rawCols : List JVal) : List JVal → IdState →
    Except JsErr (List JVal × List String × IdState)
  | [], st => .ok ([], [], st)
  | row :: rest, st => do
    let (rowId, st1) := nextId "row" st
    let cells ← tableRowCells rawCols row
    let comp := makeV08Component rowId "Text"
      [("text", .jstr (String.intercalate " │ " cells)), ("usageHint", .jstr "body")] []
    let (comps, ids, st2) ← tableRowsLoop rawCols rest st1
    .ok (comp :: comps, rowId :: ids, st2)

/-- `tableToV08`: header text line, divider, one text line per row, all
wrapped in a `Column` whose id is the table's own id. -/
def tableToV08 (raw : List (String × JVal)) (parentId : String) (st : IdState) :
    Except JsErr (List JVal × String × IdState) := do
  let rawCols ← jsCastMapArray (jlookup "columns" raw)
  let colLabels := rawCols.map colLabelOf
  let (headerComps, headerIds, st1) :=
    if colLabels.isEmpty then ([], [], st)
    else
      let (headerId, stA) := nextId "hdr" st
      let headerText := String.intercalate " │ " colLabels
      let header := makeV08Component headerId "Text"
        [("text", .jstr headerText), ("usageHint", .jstr "h3")] []
      let (divId, stB) := nextId "div" stA
      let divider := makeV08Component divId "Divider" [] []
      ([header, divider], [headerId, divId], stB)
  let rawRows ← jsCastForOf (jlookup "rows" raw)
  let (rowComps, rowIds2, st2) ← tableRowsLoop rawCols rawRows st1
  let column := makeV08Component parentId "Column" [] (headerIds ++ rowIds2)
  .ok (headerComps ++ rowComps ++ [column], parentId, st2)

/-- JS `Number()` coercion, approximated over `Int` (no claim depends on the
float cases; non-numeric operands are taken as 0 where JS would give `NaN`). -/
def jsNumber : JVal → Int
  | .jnum n => n
  | .jbool b => cond b 1 0
  | _ => 0

/-- `progressToV08`: single text component, label line plus a 20-glyph bar.
JS float arithmetic (`value / max * 100`, `Math.round`) is approximated by
integer arithmetic; division by `max = 0` yields 0 where JS would give
`NaN`/`Infinity`.  No verified claim depends on this function. -/
def progressToV08 (raw : List (String × JVal)) (id : String) (st : IdState) :
    Except JsErr (List JVal × String × IdState) :=
  let value := jsNumber ((firstNonNullish [jlookup "value" raw]).getD (.jnum 0))
  let maxv := jsNumber ((firstNonNullish [jlookup "max" raw]).getD (.jnum 100))
  let pct : Int := if maxv = 0 then 0 else min 100 (max 0 ((value * 100) / maxv))
  let label := match jlookup "label" raw with
    | some l => if jsTruthy l then jToString l else toString pct ++ "%"
    | none => toString pct ++ "%"
  let barFilled := (pct / 5).toNat
  let bar := String.mk (List.replicate barFilled '█') ++ String.mk (List.replicate (20 - barFilled) '░')
  .ok ([makeV08Component id "Text" [("text", .jstr (label ++ "\n" ++ bar)), ("usageHint", .jstr "body")] []], id, st)

/-- `codeBlockToV08`: single text component, content prefixed by the
filename, else `[language]`, else bare. -/
def codeBlockToV08 (raw : List (String × JVal)) (id : String) (st : IdState) :
    Except JsErr (List JVal × String × IdState) :=
  let code := jToString ((firstNonNullish
    [jlookup "code" raw, jlookup "content" raw, jlookup "text" raw]).getD (.jstr ""))
  let lang := (firstNonNullish [jlookup "language" raw, jlookup "lang" raw]).getD (.jstr "")
  let filename := (firstNonNullish [jlookup "filename" raw]).getD (.jstr "")
  let label := if jsTruthy filename then jToString filename
    else if jsTruthy lang then "[" ++ jToString lang ++ "]"
    else ""
  let text := if ¬(label = "") then label ++ "\n" ++ code else code
  .ok ([makeV08Component id "Text" [("text", .jstr text), ("usageHint", .jstr "body")] []], id, st)

/-- `mapToV08Type`: decompose `Table`/`Progress`/`Codeblock`/`CodeBlock`,
pass every other type through as one direct component. -/
def mapToV08Type (typeName : String) (raw : List (String × JVal)) (id : String)
    (childIds : List String) (st : IdState) :
    Except JsErr (List JVal × String × IdState) :=
  if typeName = "Table" then tableToV08 raw id st
  else if typeName = "Progress" then progressToV08 raw id st
  else if typeName = "Codeblock" ∨ typeName = "CodeBlock" then codeBlockToV08 raw id st
  else .ok ([makeV08Component id typeName raw childIds], id, st)

/-- `charAt(0).toUpperCase() + slice(1)`. -/
def capitalizeJs (s : String) : String :=
  match s.data with
  | [] => ""
  | c :: rest => String.mk (c.toUpper :: rest)

mutual

/-- `extractComponents`: depth-first extraction of a freeform component tree
into a flat list of v0.8 components plus the root id.  The id is the assigned
id, else the node's own `id` field (the TS `as string` cast of a non-string
id is completed by stringification), else a fresh id. -/
def extractComponents (raw : List (String × JVal)) (assignedId : Option String)
    (st : IdState) : Except JsErr (List JVal × String × IdState) :=
  let idSt :=
    match assignedId with
    | some s => (s, st)
    | none =>
      match jlookup "id" raw with
      | some (.jstr s) => (s, st)
      | some .jnull => nextId "c" st
      | some v => (jToString v, st)
      | none => nextId "c" st
  let rawType := match jlookup "type" raw with
    | some (.jstr s) => s
    | _ => "Text"
  let typeName := capitalizeJs rawType
  match h : jlookup "children" raw with
  | some (.jarr kids) =>
    match extractList kids idSt.2 with
    | .error e => .error e
    | .ok (childComps, childIds, st2) =>
      match mapToV08Type typeName raw idSt.1 childIds st2 with
      | .error e => .error e
      | .ok (mapped, rootId, st3) => .ok (childComps ++ mapped, rootId, st3)
  | _ =>
    mapToV08Type typeName raw idSt.1 [] idSt.2
termination_by sizeOf raw
decreasing_by
  have hv := jlookup_sizeOf_lt h
  simp only [JVal.jarr.sizeOf_spec] at hv
  omega

/-- The child loop of `extractComponents`: only plain objects (`child &&
typeof child === "object" && !Array.isArray(child)`) are recursed into. -/
def extractList (kids : List JVal) (st : IdState) :
    Except JsErr (List JVal × List String × IdState) :=
  match kids with
  | [] => .ok ([], [], st)
  | .jobj fields :: rest =>
    match extractComponents fields none st with
    | .error e => .error e
    | .ok (comps, rootId, st1) =>
      match extractList rest st1 with
      | .error e => .error e
      | .ok (comps2, ids, st2) => .ok (comps ++ comps2, rootId :: ids, st2)
  | _ :: rest => extractList rest st
termination_by sizeOf kids
decreasing_by
  · simp only [List.cons.sizeOf_spec, JVal.jobj.sizeOf_spec]
    omega
  · simp only [List.cons.sizeOf_spec]
    omega
  · simp only [List.cons.sizeOf_spec]
    omega

end

/-- The v0.8 message `{surfaceUpdate: {surfaceId, components}}`. -/
def surfaceUpdateMsg (surfaceId : String) (components : List JVal) : JVal :=
  .jobj [("surfaceUpdate", .jobj [("surfaceId", .jstr surfaceId), ("components", .jarr components)])]

/-- The v0.8 message `{beginRendering: {surfaceId, root}}`. -/
def beginRenderingMsg (surfaceId : String) (root : String) : JVal :=
  .jobj [("beginRendering", .jobj [("surfaceId", .jstr surfaceId), ("root", .jstr root)])]

/-- Object entries usable as an extraction input: a plain object gives its
fields, an array its index-keyed entries (`typeof [] === "object"`, so the
code's `typeof comp !== "object"` filter lets arrays through). -/
def jsObjFields : JVal → Option (List (String × JVal))
  | .jobj fields => some fields
  | .jarr xs => some ((xs.enum).map (fun p => (toString p.1, p.2)))
  | _ => none

/-- `v === "createSurface"` on an optional property value. -/
def isCreateSurfaceStr : Option JVal → Bool
  | some (.jstr s) => s = "createSurface"
  | _ => false

/-- The component loop shared by the `createSurface` branch of
`convertOneMessage`: skip falsy and non-object entries, extract the rest. -/
def convertComponentList : List JVal → IdState →
    Except JsErr (List JVal × List String × IdState)
  | [], st => .ok ([], [], st)
  | comp :: rest, st =>
    match jsObjFields comp with
    | none => convertComponentList rest st
    | some fields =>
      match extractComponents fields none st with
      | .error e => .error e
      | .ok (comps, rootId, st1) =>
        match convertComponentList rest st1 with
        | .error e => .error e
        | .ok (comps2, ids, st2) => .ok (comps ++ comps2, rootId :: ids, st2)

/-- `convertOneMessage`: pass through structured v0.8 messages; convert
`createSurface` wrappers; convert bare freeform components; drop anything
else (logged in the source, non-fatal). -/
def convertOneMessage (msg : JVal) (st : IdState) : Except JsErr (List JVal × IdState) := do
  let isv ← isV08Message msg
  if isv then
    return ([msg], st)
  -- v0.9 createSurface — extract components and convert
  let typeProp := jsPropD msg "type"
  let csProp := jsPropD msg "createSurface"
  if isCreateSurfaceStr typeProp || jsTruthyOpt csProp then
    let cs : JVal := match csProp with
      | some v => if jsTruthy v then v else msg
      | none => msg
    let surfaceId := jToString ((firstNonNullish
      [jsPropD cs "id", optChainProp (jsPropD cs "surface") "id", jsPropD cs "surfaceId"]).getD (.jstr "main"))
    -- The source tests `cs.surface && Array.isArray(cs.components)` and then
    -- `Array.isArray(cs.components)`; both arms read the same `cs.components`
    -- array, so they coincide and are modelled as one case.
    let rawComponents : List JVal :=
      match jsPropD cs "components" with
      | some (.jarr xs) => xs
      | _ =>
        match firstNonNullish [jsPropD cs "component", jsPropD cs "content",
            jsPropD cs "body", jsPropD cs "ui"] with
        | some single =>
          match single with
          | .jobj _ => [single]
          | .jarr _ => [single]
          | _ => []
        | none => []
    if rawComponents.isEmpty then
      return ([], st)
    let (allComponents, topLevelIds, st1) ← convertComponentList rawComponents st
    match topLevelIds with
    | [rootId] =>
      return ([surfaceUpdateMsg surfaceId allComponents, beginRenderingMsg surfaceId rootId], st1)
    | _ =>
      let (rootId, st2) := nextId "root" st1
      let allComponents := allComponents ++ [makeV08Component rootId "Column" [] topLevelIds]
      return ([surfaceUpdateMsg surfaceId allComponents, beginRenderingMsg surfaceId rootId], st2)
  -- Bare component (e.g. {type: "table", columns: [...], rows: [...]})
  match typeProp with
  | some (.jstr t) =>
    if ¬(t = "event" ∨ t = "res" ∨ t = "req") then do
      let (comps, rootId0, st1) ← extractComponents ((jsObjFields msg).getD []) none st
      let (rootId, st2) := nextId "root" st1
      let allComponents := comps ++ [makeV08Component rootId "Column" [] [rootId0]]
      return ([surfaceUpdateMsg "main" allComponents, beginRenderingMsg "main" rootId], st2)
    else
      -- Unknown format — skipped (logged in the source)
      return ([], st)
  | _ => return ([], st)

/-- The conversion loop of `convertMessagesToV08` (and of the structured
branch of `convertJsonlToV08`), threading the id counter. -/
def convertMessagesLoop : List JVal → IdState → Except JsErr (List JVal)
  | [], _ => .ok []
  | msg :: rest, st =>
    match convertOneMessage msg st with
    | .error e => .error e
    | .ok (ops, st1) =>
      match convertMessagesLoop rest st1 with
      | .error e => .error e
      | .ok ops2 => .ok (ops ++ ops2)

/-- `convertMessagesToV08`: reset the id counter, then convert each message. -/
def convertMessagesToV08 (messages : List JVal) : Except JsErr (List JVal) :=
  convertMessagesLoop messages 0

/-- `Array.prototype.every` with a possibly-throwing predicate
(short-circuits on the first `false`, as JS does). -/
def jsEvery (p : JVal → Except JsErr Bool) : List JVal → Except JsErr Bool
  | [] => .ok true
  | x :: xs => do
    let b ← p x
    if b then jsEvery p xs else .ok false

/-- `Array.prototype.some` with a possibly-throwing predicate
(short-circuits on the first `true`, as JS does). -/
def jsSome (p : JVal → Except JsErr Bool) : List JVal → Except JsErr Bool
  | [] => .ok false
  | x :: xs => do
    let b ← p x
    if b then .ok true else jsSome p xs

/-- The structured-message test of `convertJsonlToV08`:
`isV08Message(m) || m.type === "createSurface" || m.createSurface`
(the property accesses are unreachable for operands on which
`isV08Message` raises). -/
def structuredPred (m : JVal) : Except JsErr Bool := do
  let b ← isV08Message m
  if b then .ok true
  else .ok (isCreateSurfaceStr (jsPropD m "type") || jsTruthyOpt (jsPropD m "createSurface"))

/-- Accumulating splitter behind `splitLines`. -/
def splitLinesAux : List Char → List Char → List String
  | [], acc => [String.mk acc.reverse]
  | '\n' :: rest, acc => String.mk acc.reverse :: splitLinesAux rest []
  | c :: rest, acc => splitLinesAux rest (c :: acc)

/-- JS `s.split("\n")` (`"".split("\n")` is `[""]`). -/
def splitLines (s : String) : List String :=
  splitLinesAux s.data []

/-- Whitespace recognized by the model of JS `trim()`. -/
def jsIsWhitespace (c : Char) : Bool :=
  c = ' ' ∨ c = '\t' ∨ c = '\n' ∨ c = '\r'

/-- JS `s.trim()`. -/
def jsTrim (s : String) : String :=
  String.mk (((s.data.dropWhile jsIsWhitespace).reverse.dropWhile jsIsWhitespace).reverse)

/-- The bare-component batch loop of `convertJsonlToV08`: page/header/title
meta-messages only update the batch title (last wins); every other message is
extracted as its own subtree. -/
def bareBatchLoop : List JVal → IdState → String →
    Except JsErr (List JVal × List String × IdState × String)
  | [], st, title => .ok ([], [], st, title)
  | msg :: rest, st, title =>
    let rawType := match jsPropD msg "type" with
      | some (.jstr s) => s
      | _ => ""
    if rawType = "page" ∨ rawType = "header" ∨ rawType = "title" then
      let title := jToString ((firstNonNullish
        [jsPropD msg "title", jsPropD msg "text", jsPropD msg "label"]).getD (.jstr title))
      bareBatchLoop rest st title
    else
      match extractComponents ((jsObjFields msg).getD []) none st with
      | .error e => .error e
      | .ok (comps, rootId, st1) =>
        match bareBatchLoop rest st1 title with
        | .error e => .error e
        | .ok (comps2, ids, st2, title2) => .ok (comps ++ comps2, rootId :: ids, st2, title2)

/-- `convertJsonlToV08`: split into non-blank lines, parse each (a parse
failure skips the line, logged in the source), then apply the batch-level
policy.  `parseJson` stands for `JSON.parse` returning `none` where it would
throw. -/
def convertJsonlToV08 (parseJson : String → Option JVal) (jsonl : String) :
    Except JsErr (List JVal) := do
  let lines := (splitLines jsonl).filter (fun l => ¬(jsTrim l = ""))
  let parsed := lines.filterMap parseJson
  if parsed.isEmpty then
    return []
  -- Check if ALL lines are already v0.8
  let allV08 ← jsEvery isV08Message parsed
  if allV08 then
    return parsed
  -- Check if these are structured messages (createSurface, surfaceUpdate, etc.)
  let hasStructured ← jsSome structuredPred parsed
  if hasStructured then
    convertMessagesLoop parsed 0
  else
    -- All bare components — batch into a single surface
    let (allComponents, topLevelIds, st, title) ← bareBatchLoop parsed 0 "Canvas"
    if topLevelIds.isEmpty then
      return []
    let (titleId, st1) := nextId "title" st
    let allComponents := allComponents ++
      [makeV08Component titleId "Text" [("text", .jstr title), ("usageHint", .jstr "h1")] []]
    let (rootId, _) := nextId "root" st1
    let allComponents := allComponents ++
      [makeV08Component rootId "Column" [] (titleId :: topLevelIds)]
    return [surfaceUpdateMsg "main" allComponents, beginRenderingMsg "main" rootId]

/-! ## `MessageRouter` (`src/gateway/router.ts`) -/

/-- The canonical agent-event payloads (`AgentEventPayload` in
`src/gateway/types.ts`, a closed union of six kinds). -/
inductive AgentEventPayload where
  | text_delta (content : String)
  | tool_start (tool : String) (id : String) (title : Option String) (input : Option JVal)
  | tool_result (id : String) (output : JVal) (error : Option String)
  | a2ui (payload : JVal)
  | diff (path : String) (original : Option String) (modified : String)
  | done (stopReason : String)

/-- A gateway push event (`GatewayEvent`): event name, optional sequence
number and payload.  JS numbers are modelled by `Int`. -/
structure GatewayEvent where
  event : String
  seq : Option Int
  payload : AgentEventPayload

/-- The mutable state of one `MessageRouter`: `private lastSeq = -1`. -/
structure RouterState where
  lastSeq : Int
deriving DecidableEq

/-- A freshly constructed router. -/
def routerInit : RouterState := ⟨-1⟩

/-- `resetSequence()`: `this.lastSeq = -1`. -/
def resetSequence (_st : RouterState) : RouterState := ⟨-1⟩

/-- One sink invocation performed by `route` (chat = `ChatTarget.postEvent`,
canvas = `CanvasTarget.postV08Messages`, bridge = `BridgeTarget.showDiff`). -/
inductive SinkCall where
  | chat (p : AgentEventPayload)
  | canvas (msgs : List JVal)
  | bridge (original : String) (modified : String) (path : String)

/-- The dispatch switch of `route` (everything after the sequence gate).
The `a2ui` arm converts the payload through `convertMessagesToV08` before
invoking the canvas sink, so a conversion `TypeError` propagates out of
`route` and no sink is invoked for that event. -/
def dispatchCalls (e : GatewayEvent) : Except JsErr (List SinkCall) :=
  match e.payload with
  | .text_delta _ => .ok [.chat e.payload]
  | .tool_start _ _ _ _ => .ok [.chat e.payload]
  | .tool_result _ _ _ => .ok [.chat e.payload]
  | .done _ => .ok [.chat e.payload]
  | .a2ui p =>
    match convertMessagesToV08 [p] with
    | .ok msgs => .ok [.canvas msgs]
    | .error err => .error err
  | .diff path original modified =>
    .ok [.chat e.payload, .bridge (original.getD "") modified path]

/-- `route(event)`: drop the event when `seq ≤ lastSeq` (nothing dispatched,
watermark unchanged, only a diagnostic log); otherwise advance the watermark
when a sequence number is present and dispatch by kind.  The watermark update
happens before the dispatch, so it survives a conversion exception. -/
def route (st : RouterState) (e : GatewayEvent) :
    RouterState × Except JsErr (List SinkCall) :=
  match e.seq with
  | some s =>
    if s ≤ st.lastSeq then (st, .ok [])
    else (⟨s⟩, dispatchCalls e)
  | none => (st, dispatchCalls e)

/-- An operation performed on one router: feed an event, or `resetSequence`. -/
inductive RouterOp where
  | ev (e : GatewayEvent)
  | reset

/-- Apply one operation (the second component of `route` is the sink/error
outcome, which does not feed back into the router's state). -/
def routerStep (st : RouterState) : RouterOp → RouterState
  | .ev e => (route st e).1
  | .reset => resetSequence st

/-- The router state after a sequence of operations on a fresh router. -/
def runRouter (ops : List RouterOp) : RouterState :=
  ops.foldl routerStep routerInit

/-! ## `GatewayClient` (`src/gateway/client.ts`) -/

def COMMAND_TIMEOUT_MS : Nat := 30000
def RECONNECT_BASE_MS : Nat := 1000
def RECONNECT_MAX_MS : Nat := 30000
def RECONNECT_MAX_ATTEMPTS : Nat := 10
def HEARTBEAT_INTERVAL_MS : Nat := 30000
def HEARTBEAT_TIMEOUT_MS : Nat := 10000

/-- `ConnectionState` from `src/gateway/types.ts`. -/
inductive ConnectionState where
  | disconnected
  | connecting
  | connected
  | error
deriving DecidableEq

/-- A JS `Error` value used to reject a promise.  `errMsg s` is
`new Error(s)`; `commandTimeout m` is the error whose message interpolates
the command name `m` into the timed-out template. -/
inductive JsError where
  | errMsg (msg : String)
  | commandTimeout (method : String)
deriving DecidableEq

/-- The mutable state of one `GatewayClient`.  Callbacks are modelled by
returning the externally observable effects (settlements, scheduled delays,
state notifications) from each operation.  `stateTrace` records every value
delivered to the `onStateChange` handlers, in order.  Timers are modelled by
whether they are set; firing a timer is a separate operation.  The pending
map `cmd_<n> -> PendingRequest` is keyed here by `n` (the `cmd_` prefix is
injective in the counter), storing the command name that the timeout closure
captures. -/
structure Client where
  state : ConnectionState
  stateTrace : List ConnectionState
  wsOpen : Bool
  intentionalDisconnect : Bool
  reconnectAttempt : Nat
  reconnectTimer : Bool
  heartbeatInterval : Bool
  heartbeatTimeout : Bool
  pending : List (Nat × String)
  commandIdCounter : Nat
deriving DecidableEq

/-- The field initializers of `GatewayClient`. -/
def initialClient : Client :=
  { state := .disconnected
    stateTrace := []
    wsOpen := false
    intentionalDisconnect := false
    reconnectAttempt := 0
    reconnectTimer := false
    heartbeatInterval := false
    heartbeatTimeout := false
    pending := []
    commandIdCounter := 0 }

/-- `setState`: do nothing when the state is unchanged; otherwise store it
and notify every `onStateChange` handler (recorded in `stateTrace`). -/
def setState (c : Client) (s : ConnectionState) : Client :=
  if c.state = s then c
  else { c with state := s, stateTrace := c.stateTrace ++ [s] }

/-- `clearReconnectTimer`. -/
def clearReconnectTimer (c : Client) : Client :=
  { c with reconnectTimer := false }

/-- `stopHeartbeat`: clears the heartbeat interval and the pong-timeout. -/
def stopHeartbeat (c : Client) : Client :=
  { c with heartbeatInterval := false, heartbeatTimeout := false }

/-- `startHeartbeat`: stop any previous heartbeat, then set the interval. -/
def startHeartbeat (c : Client) : Client :=
  { stopHeartbeat c with heartbeatInterval := true }

/-- `rejectAllPending(reason)`: reject every pending entry with
`new Error(reason)` (clearing its timer) and clear the table.  Returns the
rejections delivered, in table order. -/
def rejectAllPending (c : Client) (reason : String) :
    Client × List (Nat × JsError) :=
  ({ c with pending := [] }, c.pending.map (fun p => (p.1, JsError.errMsg reason)))

/-- `disconnect()`: set the intentional flag, cancel the reconnect timer and
both heartbeat timers, reject all pending commands with "Client
disconnected", close and drop the socket, and set the state to
`disconnected`. -/
def disconnect (c : Client) : Client × List (Nat × JsError) :=
  let c := { c with intentionalDisconnect := true }
  let c := clearReconnectTimer c
  let c := stopHeartbeat c
  let (c, rejections) := rejectAllPending c "Client disconnected"
  let c := { c with wsOpen := false }
  (setState c .disconnected, rejections)

/-- `scheduleReconnect()`: no-op after an intentional disconnect; terminal
`error` state once the attempt counter has reached the maximum; otherwise
compute the backoff delay from the current attempt counter, increment it and
set the reconnect timer.  Returns the scheduled delay, if any. -/
def scheduleReconnect (c : Client) : Client × Option Nat :=
  if c.intentionalDisconnect then (c, none)
  else if RECONNECT_MAX_ATTEMPTS ≤ c.reconnectAttempt then (setState c .error, none)
  else
    let delay := min (RECONNECT_BASE_MS * 2 ^ c.reconnectAttempt) RECONNECT_MAX_MS
    ({ c with reconnectAttempt := c.reconnectAttempt + 1, reconnectTimer := true }, some delay)

/-- `connect(url, ...)`: clear the intentional flag, reset the attempt
counter and enter `doConnect`, which sets the state to `connecting` and opens
the socket (the open/close/error events arrive asynchronously). -/
def connect (c : Client) : Client :=
  setState { c with intentionalDisconnect := false, reconnectAttempt := 0 } .connecting

/-- The `open` listener of `doConnect`: the attempt counter is reset to 0 as
soon as the transport opens — before any handshake message is exchanged —
and the message handler is installed. -/
def onTransportOpen (c : Client) : Client :=
  { c with wsOpen := true, reconnectAttempt := 0 }

/-- `completeHandshake` (inside `setupMessageHandler`): set the state to
`connected` and start the heartbeat.  It does not touch the attempt
counter. -/
def completeHandshake (c : Client) : Client :=
  startHeartbeat (setState c .connected)

/-- Result of the socket `close` handler. -/
structure CloseResult where
  client : Client
  rejections : List (Nat × JsError)
  scheduledDelay : Option Nat
deriving DecidableEq

/-- The `close` listener installed by `setupMessageHandler`: drop the socket,
stop the heartbeat, reject all pending commands with "Connection closed";
then, unless the disconnect was intentional, set the state to `disconnected`
and schedule a reconnect. -/
def onSocketClose (c : Client) : CloseResult :=
  let c := { c with wsOpen := false }
  let c := stopHeartbeat c
  let (c, rejections) := rejectAllPending c "Connection closed"
  if c.intentionalDisconnect then ⟨c, rejections, none⟩
  else
    let c := setState c .disconnected
    let (c, d) := scheduleReconnect c
    ⟨c, rejections, d⟩

/-- Outcome of the synchronous part of `sendCommand`. -/
inductive SendOutcome where
  | rejectedNotConnected
  | sent (id : Nat) (timeoutMs : Nat)
deriving DecidableEq

/-- Lookup in the pending table (`pendingRequests.get`). -/
def lookupPending (l : List (Nat × String)) (id : Nat) : Option String :=
  match l with
  | [] => none
  | (i, m) :: rest => if i = id then some m else lookupPending rest id

/-- Removal from the pending table (`pendingRequests.delete`). -/
def removePending (l : List (Nat × String)) (id : Nat) : List (Nat × String) :=
  l.filter (fun p => ¬(p.1 = id))

/-- `sendCommand(command, params)`: reject immediately with
`new Error("Not connected to Gateway")` when no open socket exists (and store
nothing); otherwise allocate `` `cmd_${++commandIdCounter}` ``, store a
pending entry with a `COMMAND_TIMEOUT_MS` timer, and transmit the request
frame. -/
def sendCommand (c : Client) (method : String) : Client × SendOutcome :=
  if c.wsOpen = false then (c, .rejectedNotConnected)
  else
    let id := c.commandIdCounter + 1
    ({ c with commandIdCounter := id, pending := c.pending ++ [(id, method)] },
     .sent id COMMAND_TIMEOUT_MS)

/-- A `res` frame relevant to command correlation (`{type:"res", id, ok,
payload|error}`); `id` is the numeric part of `cmd_<id>`. -/
structure ResFrame where
  id : Nat
  ok : Option Bool
  payload : Option JVal
  error : Option JVal

/-- How a pending promise is settled. `resolvedFrame` models
`resolve(parsed.payload ?? parsed)` when the payload is absent or `null`
(the promise then receives the whole frame). -/
inductive Settlement where
  | resolved (v : JVal)
  | resolvedFrame
  | rejected (e : JsError)

/-- `formatError`: an object with a string `message` yields that message;
any other object is `JSON.stringify`ed; anything else is `String(err)`
(`"undefined"` for a missing error). -/
def formatError : Option JVal → String
  | some (.jobj fields) =>
    (match jlookup "message" fields with
     | some (.jstr m) => m
     | _ => jStringify (.jobj fields))
  | some (.jarr xs) => jStringify (.jarr xs)
  | some v => jToString v
  | none => "undefined"

/-- The `res` branch of the post-handshake message handler: an unmatched id
does nothing; a matched id removes the entry, clears its timer, and rejects
with the carried error (`ok === false`) or resolves with
`parsed.payload ?? parsed`. -/
def handleResponseFrame (c : Client) (f : ResFrame) : Client × Option (Nat × Settlement) :=
  match lookupPending c.pending f.id with
  | none => (c, none)
  | some _ =>
    let c := { c with pending := removePending c.pending f.id }
    if f.ok = some false then
      (c, some (f.id, .rejected (.errMsg (formatError f.error))))
    else
      match f.payload with
      | some .jnull => (c, some (f.id, .resolvedFrame))
      | some p => (c, some (f.id, .resolved p))
      | none => (c, some (f.id, .resolvedFrame))

/-- The 30s timeout timer of a pending command firing: delete the entry and
reject with the command-timed-out error.  The timer only fires while the
entry is still pending (settling a response clears the timer), which the
lookup guard models. -/
def fireCommandTimeout (c : Client) (id : Nat) : Client × Option (Nat × Settlement) :=
  match lookupPending c.pending id with
  | none => (c, none)
  | some method =>
    ({ c with pending := removePending c.pending id },
     some (id, .rejected (.commandTimeout method)))

/-- All ids in the pending table have been allocated by the counter. -/
def pendingIdsBounded (c : Client) : Prop :=
  ∀ p ∈ c.pending, p.1 ≤ c.commandIdCounter

/-- Fold `setState` over a list of requested states (all state transitions
of the client go through `setState`). -/
def applyStates (c : Client) : List ConnectionState → Client
  | [] => c
  | s :: rest => applyStates (setState c s) rest

/-! ## Concrete example data used by the verified properties -/

/-- The freeform table `{"type":"table","columns":["A","B"],"rows":[["1","2"]]}`. -/
def c7input : List (String × JVal) :=
  [("type", .jstr "table"),
   ("columns", .jarr [.jstr "A", .jstr "B"]),
   ("rows", .jarr [.jarr [.jstr "1", .jstr "2"]])]

/-- Expected header component of the C7 table decomposition. -/
def c7_header : JVal :=
  JVal.jobj [
    ("id", JVal.jstr "hdr_2"),
    ("component", JVal.jobj [
      ("Text", JVal.jobj [
        ("text", JVal.jobj [("literalString", JVal.jstr "A │ B")]),
        ("usageHint", JVal.jobj [("literalString", JVal.jstr "h3")])])])]

/-- Expected divider component of the C7 table decomposition. -/
def c7_divider : JVal :=
  JVal.jobj [
    ("id", JVal.jstr "div_3"),
    ("component", JVal.jobj [("Divider", JVal.jobj [])])]

/-- Expected data-row component of the C7 table decomposition. -/
def c7_row : JVal :=
  JVal.jobj [
    ("id", JVal.jstr "row_4"),
    ("component", JVal.jobj [
      ("Text", JVal.jobj [
        ("text", JVal.jobj [("literalString", JVal.jstr "1 │ 2")]),
        ("usageHint", JVal.jobj [("literalString", JVal.jstr "body")])])])]

/-- Expected root vertical-stack component of the C7 table decomposition. -/
def c7_column : JVal :=
  JVal.jobj [
    ("id", JVal.jstr "c_1"),
    ("component", JVal.jobj [
      ("Column", JVal.jobj [
        ("children", JVal.jobj [
          ("explicitList", JVal.jarr [JVal.jstr "hdr_2", JVal.jstr "div_3", JVal.jstr "row_4"])])])])]

/-- `{"type":"table","columns":5}` — a table whose `columns` value is not an
array, driving `rawCols.map` into a `TypeError`. -/
def c8_poisonTableMsg : JVal := .jobj [("type", .jstr "table"), ("columns", .jnum 5)]

/-- `JSON.parse` restricted to the input exercised by the C8 evaluation:
the line `"5"` parses to the number 5. -/
def c8_parse : String → Option JVal :=
  fun l => if l = "5" then some (.jnum 5) else none

/-- An `a2ui` event without a sequence number whose payload crashes the
converter (`createSurface` whose content is a table with `columns: 5`). -/
def c1_poisonEvent : GatewayEvent :=
  { event := "agent", seq := none,
    payload := .a2ui (.jobj [("type", .jstr "createSurface"),
      ("content", .jobj [("type", .jstr "table"), ("columns", .jnum 5)])]) }

def c1_evSeq5 : GatewayEvent := { event := "agent", seq := some 5, payload := .text_delta "hello" }
def c1_evSeq3 : GatewayEvent := { event := "agent", seq := some 3, payload := .done "end_turn" }
def c1_evSeq9 : GatewayEvent := { event := "agent", seq := some 9, payload := .tool_start "bash" "t1" none none }
def c1_evNoSeq : GatewayEvent := { event := "agent", seq := none, payload := .text_delta "x" }
def c1_ops : List RouterOp := [.ev c1_evSeq5]

def c9_evSeq0 : GatewayEvent := { event := "agent", seq := some 0, payload := .text_delta "a" }
def c9_evSeqNeg : GatewayEvent := { event := "agent", seq := some (-1), payload := .text_delta "b" }

/-- A connected client with an open socket and no pending commands. -/
def c2_openClient : Client := { initialClient with state := .connected, wsOpen := true }

/-- The client after `sendCommand` allocated id 1 for `chat.send`. -/
def c2_pendingClient : Client :=
  { c2_openClient with pending := [(1, "chat.send")], commandIdCounter := 1 }

/-- A second, independent client instance (its own counter at 0). -/
def c2_secondClient : Client :=
  { initialClient with state := .connected, wsOpen := true, stateTrace := [.connected] }

/-- A client in the middle of automatic reconnection, 3 attempts in. -/
def c3_client : Client := { initialClient with reconnectAttempt := 3 }

/-- A client whose reconnect-attempt counter has reached the maximum. -/
def c3_client10 : Client := { initialClient with reconnectAttempt := 10 }

/-- A client that has failed 7 reconnect attempts and is connecting again. -/
def c4_client7 : Client := { initialClient with state := .connecting, reconnectAttempt := 7 }

/-- A batch of two already-structured v0.8 messages. -/
def c6_batch : List JVal :=
  [.jobj [("surfaceUpdate", .jobj [("surfaceId", .jstr "main"), ("components", .jarr [])])],
   .jobj [("deleteSurface", .jobj [("surfaceId", .jstr "main")])]]

/-! ## Helper lemmas -/

theorem setState_state (c : Client) (s : ConnectionState) : (setState c s).state = s := by
  unfold setState; split
  · simp_all
  · rfl

theorem setState_reconnectAttempt (c : Client) (s : ConnectionState) :
    (setState c s).reconnectAttempt = c.reconnectAttempt := by
  unfold setState; split <;> rfl

theorem setState_intentionalDisconnect (c : Client) (s : ConnectionState) :
    (setState c s).intentionalDisconnect = c.intentionalDisconnect := by
  unfold setState; split <;> rfl

theorem setState_pending (c : Client) (s : ConnectionState) :
    (setState c s).pending = c.pending := by
  unfold setState; split <;> rfl

theorem setState_wsOpen (c : Client) (s : ConnectionState) :
    (setState c s).wsOpen = c.wsOpen := by
  unfold setState; split <;> rfl

theorem setState_reconnectTimer (c : Client) (s : ConnectionState) :
    (setState c s).reconnectTimer = c.reconnectTimer := by
  unfold setState; split <;> rfl

theorem setState_heartbeatInterval (c : Client) (s : ConnectionState) :
    (setState c s).heartbeatInterval = c.heartbeatInterval := by
  unfold setState; split <;> rfl

theorem setState_heartbeatTimeout (c : Client) (s : ConnectionState) :
    (setState c s).heartbeatTimeout = c.heartbeatTimeout := by
  unfold setState; split <;> rfl

theorem routerStep_lastSeq_ge {st : RouterState} (h : -1 ≤ st.lastSeq) (op : RouterOp) :
    -1 ≤ (routerStep st op).lastSeq := by
  cases op with
  | reset => simp [routerStep, resetSequence]
  | ev e =>
    simp only [routerStep, route]
    cases e.seq with
    | none => exact h
    | some s =>
      simp only
      split
      · exact h
      · rename_i hlt
        simp only [Int.not_le] at hlt
        simp only []
        show -1 ≤ s
        omega

theorem runRouter_lastSeq_ge (ops : List RouterOp) : -1 ≤ (runRouter ops).lastSeq := by
  suffices hgen : ∀ st : RouterState, -1 ≤ st.lastSeq → -1 ≤ (ops.foldl routerStep st).lastSeq by
    exact hgen routerInit (by simp [routerInit])
  induction ops with
  | nil => intro st h; exact h
  | cons op rest ih =>
    intro st h
    exact ih (routerStep st op) (routerStep_lastSeq_ge h op)

theorem dispatchCalls_ok_ne_nil (e : GatewayEvent) :
    ∀ cs, dispatchCalls e = .ok cs → cs ≠ [] := by
  intro cs h
  unfold dispatchCalls at h
  cases hp : e.payload <;> simp [hp] at h <;> try (cases h; simp)
  case a2ui p =>
    cases hc : convertMessagesToV08 [p] <;> simp [hc] at h
    cases h; simp

theorem getLast?_append_singleton {α : Type} (l : List α) (a : α) :
    (l ++ [a]).getLast? = some a := by
  rw [List.getLast?_append_cons]
  rfl

theorem setState_trace_inv (c : Client) (s : ConnectionState)
    (h1 : List.Chain' (· ≠ ·) c.stateTrace)
    (h2 : ∀ x, c.stateTrace.getLast? = some x → x = c.state) :
    List.Chain' (· ≠ ·) (setState c s).stateTrace ∧
      (∀ x, (setState c s).stateTrace.getLast? = some x → x = (setState c s).state) := by
  unfold setState
  split
  · exact ⟨h1, h2⟩
  · rename_i hne
    constructor
    · rw [List.chain'_append]
      refine ⟨h1, List.chain'_singleton s, ?_⟩
      intro x hx y hy
      simp only [List.head?_cons, Option.mem_def, Option.some.injEq] at hy
      subst hy
      have hx' := h2 x (Option.mem_def.mp hx)
      subst hx'
      exact hne
    · intro x hx
      simp only at hx ⊢
      rw [getLast?_append_singleton] at hx
      cases hx
      rfl

theorem applyStates_inv (ss : List ConnectionState) :
    ∀ c : Client, List.Chain' (· ≠ ·) c.stateTrace →
      (∀ x, c.stateTrace.getLast? = some x → x = c.state) →
      List.Chain' (· ≠ ·) (applyStates c ss).stateTrace := by
  induction ss with
  | nil => intro c h1 _; exact h1
  | cons s rest ih =>
    intro c h1 h2
    have h := setState_trace_inv c s h1 h2
    exact ih (setState c s) h.1 h.2

/-- C10: connectivity-state observers are notified only on actual
transitions — for any sequence of requested states applied through
`setState` to a fresh client, the sequence of states delivered to the
`onStateChange` handlers (`stateTrace`) never contains two consecutive equal
states. -/
theorem c10_no_duplicate_notifications (ss : List ConnectionState) :
    List.Chain' (· ≠ ·) (applyStates initialClient ss).stateTrace :=
  applyStates_inv ss initialClient (by simp [initialClient]) (by simp [initialClient])

/-- C3: for every attempt number `k < 10` (with automatic reconnection not
suppressed), `scheduleReconnect` schedules a delay of
`min(1000 × 2^k, 30000)` ms and increments the counter; once the counter has
reached 10, it sets the session state to `error`, schedules nothing, and
leaves the counter unchanged (so every later call again schedules nothing
until the counter is reset). -/
theorem c3_reconnect_backoff :
    (∀ c : Client, c.intentionalDisconnect = false →
      c.reconnectAttempt < RECONNECT_MAX_ATTEMPTS →
      scheduleReconnect c =
        ({ c with reconnectAttempt := c.reconnectAttempt + 1, reconnectTimer := true },
         some (min (RECONNECT_BASE_MS * 2 ^ c.reconnectAttempt) RECONNECT_MAX_MS))) ∧
    (∀ c : Client, c.intentionalDisconnect = false →
      RECONNECT_MAX_ATTEMPTS ≤ c.reconnectAttempt →
      (scheduleReconnect c).1.state = .error ∧
      (scheduleReconnect c).2 = none ∧
      (scheduleReconnect c).1.reconnectAttempt = c.reconnectAttempt ∧
      (scheduleReconnect c).1.intentionalDisconnect = false) := by
  constructor
  · intro c h1 h2
    simp [scheduleReconnect, h1, Nat.not_le.mpr h2]
  · intro c h1 h2
    simp [scheduleReconnect, h1, h2, setState_state, setState_reconnectAttempt,
      setState_intentionalDisconnect]

/-- Witness for C3 at concrete clients: attempt 3 schedules 8000 ms; attempt
10 is terminal. -/
theorem c3_reconnect_backoff_witness :
    scheduleReconnect c3_client =
      ({ c3_client with reconnectAttempt := 4, reconnectTimer := true }, some 8000) ∧
    (scheduleReconnect c3_client10).1.state = .error ∧
    (scheduleReconnect c3_client10).2 = none := by
  have h := c3_reconnect_backoff
  exact ⟨h.1 c3_client rfl (by decide),
    (h.2 c3_client10 rfl (by decide)).1,
    (h.2 c3_client10 rfl (by decide)).2.1⟩

/-- C4 counterexample: a client 7 failed attempts in has its counter reset to
0 by the transport merely opening, while the handshake has not completed (the
state is still `connecting`) — contradicting the claim that the counter is
reset only once the handshake has completed. -/
theorem c4_reset_on_open_counterexample :
    c4_client7.reconnectAttempt = 7 ∧
    (onTransportOpen c4_client7).reconnectAttempt = 0 ∧
    (onTransportOpen c4_client7).state = .connecting := by
  exact ⟨rfl, rfl, rfl⟩

/-- C4 (amended): the reconnect-attempt counter is reset to 0 by `connect()`
and again whenever the transport opens — before the handshake; completing the
handshake does not touch the counter.  Hence an endpoint that accepts the
transport but never completes the handshake does not exhaust the attempts:
after every open-then-close cycle the next reconnect is scheduled from
attempt 0 (delay `RECONNECT_BASE_MS`) and the session ends the cycle in
`disconnected`, not `error`. -/
theorem c4_reset_on_open_amended :
    (∀ c : Client, (onTransportOpen c).reconnectAttempt = 0 ∧
      (onTransportOpen c).state = c.state) ∧
    (∀ c : Client, (completeHandshake c).reconnectAttempt = c.reconnectAttempt) ∧
    (∀ c : Client, (connect c).reconnectAttempt = 0) ∧
    (∀ c : Client, c.intentionalDisconnect = false →
      (onSocketClose (onTransportOpen c)).scheduledDelay = some RECONNECT_BASE_MS ∧
      (onSocketClose (onTransportOpen c)).client.reconnectAttempt = 1 ∧
      (onSocketClose (onTransportOpen c)).client.state = .disconnected) := by
  refine ⟨fun c => ⟨rfl, rfl⟩, ?_, ?_, ?_⟩
  · intro c
    simp [completeHandshake, startHeartbeat, stopHeartbeat, setState_reconnectAttempt]
  · intro c
    simp [connect, setState_reconnectAttempt]
  · intro c h
    simp [onSocketClose, onTransportOpen, stopHeartbeat, rejectAllPending, h,
      setState_intentionalDisconnect, scheduleReconnect, RECONNECT_MAX_ATTEMPTS,
      setState_reconnectAttempt, setState_state, RECONNECT_BASE_MS, RECONNECT_MAX_MS]

/-- Witness for C4 (amended) at the initial client. -/
theorem c4_reset_on_open_amended_witness :
    (onSocketClose (onTransportOpen initialClient)).scheduledDelay = some 1000 ∧
    (onSocketClose (onTransportOpen initialClient)).client.state = .disconnected ∧
    (completeHandshake c4_client7).reconnectAttempt = 7 := by
  have h := c4_reset_on_open_amended
  exact ⟨(h.2.2.2 initialClient rfl).1, (h.2.2.2 initialClient rfl).2.2,
    h.2.1 c4_client7⟩

/-- C5: `disconnect()` is terminal and synchronous from every starting state:
every pending command is rejected (with "Client disconnected") and the table
cleared, the reconnect timer and both heartbeat timers are cancelled, the
socket is dropped, the state is `disconnected`, reconnection is suppressed
(`scheduleReconnect` and the socket-close handler schedule nothing
afterwards). -/
theorem c5_disconnect_terminal (c : Client) :
    (disconnect c).2 = c.pending.map (fun p => (p.1, JsError.errMsg "Client disconnected")) ∧
    (disconnect c).1.pending = [] ∧
    (disconnect c).1.reconnectTimer = false ∧
    (disconnect c).1.heartbeatInterval = false ∧
    (disconnect c).1.heartbeatTimeout = false ∧
    (disconnect c).1.wsOpen = false ∧
    (disconnect c).1.state = .disconnected ∧
    (disconnect c).1.intentionalDisconnect = true ∧
    scheduleReconnect (disconnect c).1 = ((disconnect c).1, none) ∧
    (onSocketClose (disconnect c).1).scheduledDelay = none ∧
    (onSocketClose (disconnect c).1).rejections = [] := by
  refine ⟨rfl, ?_, ?_, ?_, ?_, ?_, ?_, ?_, ?_, ?_, ?_⟩ <;>
    simp [disconnect, clearReconnectTimer, stopHeartbeat, rejectAllPending,
      scheduleReconnect, onSocketClose, setState_state, setState_pending,
      setState_reconnectTimer, setState_heartbeatInterval, setState_heartbeatTimeout,
      setState_wsOpen, setState_intentionalDisconnect]

/-- C9: a fresh router (and a router immediately after `resetSequence()`) has
watermark -1, so every event with sequence number ≥ 0 passes the gate and
advances the watermark, while an event with a negative sequence number (for
example -1) is dropped — no sink call, watermark unchanged — even though no
event has been observed yet. -/
theorem c9_fresh_watermark :
    routerInit.lastSeq = -1 ∧
    (∀ st : RouterState, (resetSequence st).lastSeq = -1) ∧
    (∀ (e : GatewayEvent) (s : Int), e.seq = some s → 0 ≤ s →
      (route routerInit e).1 = ⟨s⟩ ∧
      ∀ st : RouterState, (route (resetSequence st) e).1 = ⟨s⟩) ∧
    (∀ (e : GatewayEvent) (s : Int), e.seq = some s → s < 0 →
      route routerInit e = (routerInit, .ok []) ∧
      ∀ st : RouterState, route (resetSequence st) e = (resetSequence st, .ok [])) := by
  refine ⟨rfl, fun _ => rfl, ?_, ?_⟩
  · intro e s hseq hs
    refine ⟨?_, fun st => ?_⟩
    · simp only [route, hseq]
      rw [if_neg (by simp only [routerInit]; omega)]
    · simp only [route, hseq]
      rw [if_neg (by simp only [resetSequence]; omega)]
  · intro e s hseq hs
    refine ⟨?_, fun st => ?_⟩
    · simp only [route, hseq]
      rw [if_pos (by simp only [routerInit]; omega)]
    · simp only [route, hseq]
      rw [if_pos (by simp only [resetSequence]; omega)]

/-- Witness for C9: sequence number 0 passes a fresh router and a reset
router; sequence number -1 is dropped by both. -/
theorem c9_fresh_watermark_witness :
    (route routerInit c9_evSeq0).1 = ⟨0⟩ ∧
    (route (resetSequence ⟨5⟩) c9_evSeq0).1 = ⟨0⟩ ∧
    route routerInit c9_evSeqNeg = (routerInit, .ok []) ∧
    route (resetSequence ⟨5⟩) c9_evSeqNeg = (resetSequence ⟨5⟩, .ok []) := by
  have h := c9_fresh_watermark
  exact ⟨(h.2.2.1 c9_evSeq0 0 rfl (by decide)).1,
    (h.2.2.1 c9_evSeq0 0 rfl (by decide)).2 ⟨5⟩,
    (h.2.2.2 c9_evSeqNeg (-1) rfl (by decide)).1,
    (h.2.2.2 c9_evSeqNeg (-1) rfl (by decide)).2 ⟨5⟩⟩

/-- C1 counterexample: an event carrying no sequence number is NOT always
dispatched to its sink — an `a2ui` event whose payload makes the converter
raise a `TypeError` (here a `createSurface` containing a table with
`columns: 5`) propagates the error out of `route` before the canvas sink is
invoked. -/
theorem c1_always_dispatch_counterexample :
    route routerInit c1_poisonEvent = (routerInit, .error .typeError) := by
  have h : extractComponents [("type", JVal.jstr "table"), ("columns", JVal.jnum 5)] none 0 =
      Except.error JsErr.typeError := by
    rw [extractComponents.eq_def]; rfl
  simp [route, c1_poisonEvent, dispatchCalls, convertMessagesToV08, convertMessagesLoop,
    convertOneMessage, isV08Message, V08_ACTION_KEYS, jlookup, jsPropD, isCreateSurfaceStr,
    jsTruthyOpt, jsObjFields, convertComponentList, firstNonNullish, optChainProp, h,
    bind, Except.bind, pure, Except.pure]

/-- C1 (amended): for every sequence of events and resets fed to one
`MessageRouter` — an event carrying no sequence number is dispatched to its
sink (unless the `a2ui` conversion raises, in which case the error
propagates before any sink call; every successful dispatch invokes at least
one sink); an event whose sequence number is ≤ the current watermark is
dropped: no sink is invoked and the watermark is unchanged; an event whose
sequence number exceeds the watermark is dispatched the same way and the
watermark becomes that number; and an event accepted at some earlier
reachable watermark, with a lower sequence number than the pre-reset
watermark, is accepted again after `resetSequence()`. -/
theorem c1_sequence_gate_amended :
    (∀ (ops : List RouterOp) (e : GatewayEvent), e.seq = none →
      route (runRouter ops) e = (runRouter ops, dispatchCalls e) ∧
      (∀ cs, dispatchCalls e = .ok cs → cs ≠ [])) ∧
    (∀ (ops : List RouterOp) (e : GatewayEvent) (s : Int), e.seq = some s →
      s ≤ (runRouter ops).lastSeq →
      route (runRouter ops) e = (runRouter ops, .ok [])) ∧
    (∀ (ops : List RouterOp) (e : GatewayEvent) (s : Int), e.seq = some s →
      (runRouter ops).lastSeq < s →
      route (runRouter ops) e = (⟨s⟩, dispatchCalls e) ∧
      (∀ cs, dispatchCalls e = .ok cs → cs ≠ [])) ∧
    (∀ (ops0 ops : List RouterOp) (e : GatewayEvent) (s : Int), e.seq = some s →
      (runRouter ops0).lastSeq < s →
      s < (runRouter ops).lastSeq →
      route (resetSequence (runRouter ops)) e = (⟨s⟩, dispatchCalls e)) := by
  refine ⟨?_, ?_, ?_, ?_⟩
  · intro ops e hseq
    exact ⟨by simp [route, hseq], dispatchCalls_ok_ne_nil e⟩
  · intro ops e s hseq hle
    simp only [route, hseq]
    rw [if_pos hle]
  · intro ops e s hseq hlt
    refine ⟨?_, dispatchCalls_ok_ne_nil e⟩
    simp only [route, hseq]
    rw [if_neg (Int.not_le.mpr hlt)]
  · intro ops0 ops e s hseq hacc hlow
    have h0 := runRouter_lastSeq_ge ops0
    simp only [route, hseq]
    rw [if_neg (by simp only [resetSequence]; omega)]

/-- Witness for C1 (amended): after accepting sequence number 5, a
sequence-free event is dispatched, sequence 3 is dropped, sequence 9 is
accepted and advances the watermark, and after a reset the previously
accepted sequence 3-event (accepted on the empty run, lower than the
pre-reset watermark 5) passes again. -/
theorem c1_sequence_gate_amended_witness :
    route (runRouter c1_ops) c1_evNoSeq = (runRouter c1_ops, dispatchCalls c1_evNoSeq) ∧
    route (runRouter c1_ops) c1_evSeq3 = (runRouter c1_ops, .ok []) ∧
    route (runRouter c1_ops) c1_evSeq9 = (⟨9⟩, dispatchCalls c1_evSeq9) ∧
    route (resetSequence (runRouter c1_ops)) c1_evSeq3 = (⟨3⟩, dispatchCalls c1_evSeq3) := by
  have h := c1_sequence_gate_amended
  exact ⟨(h.1 c1_ops c1_evNoSeq rfl).1,
    h.2.1 c1_ops c1_evSeq3 3 rfl (by decide),
    (h.2.2.1 c1_ops c1_evSeq9 9 rfl (by decide)).1,
    h.2.2.2 [] c1_ops c1_evSeq3 3 rfl (by decide) (by decide)⟩

theorem lookupPending_none_of_bounded {l : List (Nat × String)} {n : Nat}
    (h : ∀ p ∈ l, p.1 ≤ n) : lookupPending l (n + 1) = none := by
  induction l with
  | nil => rfl
  | cons p rest ih =>
    obtain ⟨i, m⟩ := p
    have hi : i ≤ n := h (i, m) (List.mem_cons_self _ _)
    simp only [lookupPending]
    rw [if_neg (by omega)]
    exact ih (fun q hq => h q (List.mem_cons_of_mem _ hq))

theorem lookupPending_removePending (l : List (Nat × String)) (id : Nat) :
    lookupPending (removePending l id) id = none := by
  induction l with
  | nil => rfl
  | cons p rest ih =>
    obtain ⟨i, m⟩ := p
    simp only [removePending] at ih ⊢
    by_cases hi : i = id
    · rw [List.filter_cons_of_neg (by simp [hi])]
      exact ih
    · rw [List.filter_cons_of_pos (by simp [hi])]
      simp only [lookupPending]
      rw [if_neg hi]
      exact ih

/-- C2 counterexample: a command sent on an open transport can be settled by
a fourth mechanism not among the three claimed outcomes — `disconnect()`
rejects the still-pending promise with the disconnection error "Client
disconnected" although no response frame matched it (the unmatched-response
conjunct shows no settlement happened before) and its timeout never fired.
In addition the allocated id is not process-unique: a second, independent
client instance allocates the same first id `cmd_1`. -/
theorem c2_three_outcomes_counterexample :
    (sendCommand c2_openClient "chat.send").1 = c2_pendingClient ∧
    (disconnect c2_pendingClient).2 = [(1, JsError.errMsg "Client disconnected")] ∧
    handleResponseFrame c2_pendingClient { id := 2, ok := some true, payload := none, error := none } =
      (c2_pendingClient, none) ∧
    (sendCommand c2_secondClient "session.list").2 = .sent 1 COMMAND_TIMEOUT_MS := by
  exact ⟨rfl, rfl, rfl, rfl⟩

/-- C2 (amended): `sendCommand` with no open transport rejects immediately
with the "Not connected to Gateway" error and stores nothing; otherwise it
allocates the next counter id — fresh among this client's pending ids — and
stores a pending entry with a 30000 ms timeout.  The pending promise is then
settled by exactly one of four mechanisms, each of which removes the entry
first (so no second settlement can match it): a response with that id and
`ok` not `false` resolves it with the response payload; a response with
`ok: false` rejects it with the carried error message; the 30000 ms timer
rejects it with the timeout error; and a disconnect rejects every pending
entry with the disconnection error. -/
theorem c2_send_command_amended :
    (∀ (c : Client) (method : String), c.wsOpen = false →
      sendCommand c method = (c, .rejectedNotConnected)) ∧
    (∀ (c : Client) (method : String), c.wsOpen = true → pendingIdsBounded c →
      sendCommand c method =
        ({ c with commandIdCounter := c.commandIdCounter + 1,
                  pending := c.pending ++ [(c.commandIdCounter + 1, method)] },
         .sent (c.commandIdCounter + 1) COMMAND_TIMEOUT_MS) ∧
      lookupPending c.pending (c.commandIdCounter + 1) = none ∧
      pendingIdsBounded (sendCommand c method).1) ∧
    (∀ (c : Client) (f : ResFrame), lookupPending c.pending f.id = none →
      handleResponseFrame c f = (c, none)) ∧
    (∀ (c : Client) (f : ResFrame) (m : String) (p : JVal),
      lookupPending c.pending f.id = some m → ¬(f.ok = some false) →
      f.payload = some p → ¬(p = JVal.jnull) →
      handleResponseFrame c f =
        ({ c with pending := removePending c.pending f.id },
         some (f.id, .resolved p))) ∧
    (∀ (c : Client) (f : ResFrame) (m : String),
      lookupPending c.pending f.id = some m → f.ok = some false →
      handleResponseFrame c f =
        ({ c with pending := removePending c.pending f.id },
         some (f.id, .rejected (.errMsg (formatError f.error))))) ∧
    (∀ (c : Client) (id : Nat) (m : String), lookupPending c.pending id = some m →
      fireCommandTimeout c id =
        ({ c with pending := removePending c.pending id },
         some (id, .rejected (.commandTimeout m)))) ∧
    (∀ (c : Client) (id : Nat), lookupPending c.pending id = none →
      fireCommandTimeout c id = (c, none)) ∧
    (∀ (l : List (Nat × String)) (id : Nat),
      lookupPending (removePending l id) id = none) ∧
    (∀ c : Client,
      (disconnect c).2 = c.pending.map (fun p => (p.1, JsError.errMsg "Client disconnected"))) := by
  refine ⟨?_, ?_, ?_, ?_, ?_, ?_, ?_, lookupPending_removePending, fun _ => rfl⟩
  · intro c method h
    simp [sendCommand, h]
  · intro c method h hb
    refine ⟨?_, lookupPending_none_of_bounded hb, ?_⟩
    · simp [sendCommand, h]
    · intro p hp
      simp only [sendCommand, h, Bool.true_eq_false, if_neg] at hp
      simp only [sendCommand, h, Bool.true_eq_false, if_neg]
      rw [if_neg (by simp)] at hp
      rw [if_neg (by simp)]
      simp only [List.mem_append, List.mem_singleton] at hp
      rcases hp with hp | hp
      · exact Nat.le_succ_of_le (hb p hp)
      · subst hp; exact Nat.le_refl _
  · intro c f h
    simp [handleResponseFrame, h]
  · intro c f m p hm hok hp hpn
    simp only [handleResponseFrame, hm]
    rw [if_neg hok, hp]
    cases p with
    | jnull => exact absurd rfl hpn
    | jbool b => rfl
    | jnum n => rfl
    | jstr s => rfl
    | jarr xs => rfl
    | jobj fs => rfl
  · intro c f m hm hok
    simp only [handleResponseFrame, hm]
    rw [if_pos hok]
  · intro c id m hm
    simp [fireCommandTimeout, hm]
  · intro c id h
    simp [fireCommandTimeout, h]

/-- Witness for C2 (amended) at concrete clients and frames. -/
theorem c2_send_command_amended_witness :
    sendCommand initialClient "ping" = (initialClient, .rejectedNotConnected) ∧
    sendCommand c2_openClient "chat.send" = (c2_pendingClient, .sent 1 30000) ∧
    handleResponseFrame c2_pendingClient
        { id := 1, ok := some true, payload := some (.jstr "done"), error := none } =
      ({ c2_pendingClient with pending := [] }, some (1, .resolved (.jstr "done"))) ∧
    handleResponseFrame c2_pendingClient
        { id := 1, ok := some false, payload := none,
          error := some (.jobj [("message", .jstr "boom")]) } =
      ({ c2_pendingClient with pending := [] }, some (1, .rejected (.errMsg "boom"))) ∧
    fireCommandTimeout c2_pendingClient 1 =
      ({ c2_pendingClient with pending := [] }, some (1, .rejected (.commandTimeout "chat.send"))) ∧
    fireCommandTimeout c2_openClient 1 = (c2_openClient, none) := by
  have h := c2_send_command_amended
  refine ⟨h.1 initialClient "ping" rfl, ?_, ?_, ?_, ?_, ?_⟩
  · exact (h.2.1 c2_openClient "chat.send" rfl
      (by intro p hp; simp [c2_openClient, initialClient] at hp)).1
  · exact h.2.2.2.1 c2_pendingClient _ "chat.send" (.jstr "done") rfl (by decide) rfl
      (fun hh => JVal.noConfusion hh)
  · exact h.2.2.2.2.1 c2_pendingClient _ "chat.send" rfl rfl
  · exact h.2.2.2.2.2.1 c2_pendingClient 1 "chat.send" rfl
  · exact h.2.2.2.2.2.2.1 c2_openClient 1 rfl

theorem convertOneMessage_structured (m : JVal) (st : IdState)
    (h : isV08Message m = .ok true) : convertOneMessage m st = .ok ([m], st) := by
  simp [convertOneMessage, h, bind, Except.bind, pure, Except.pure]

/-- C6: the converter is the identity on already-structured batches — when
every object in the batch already carries one of the four structured
operation keys (`isV08Message` answers `true`), `convertMessagesToV08`
returns the input list unchanged and in order. -/
theorem c6_structured_passthrough (ops : List JVal)
    (h : ∀ m ∈ ops, isV08Message m = .ok true) :
    convertMessagesToV08 ops = .ok ops := by
  suffices hloop : ∀ (msgs : List JVal) (st : IdState),
      (∀ m ∈ msgs, isV08Message m = .ok true) → convertMessagesLoop msgs st = .ok msgs by
    exact hloop ops 0 h
  intro msgs
  induction msgs with
  | nil => intro st _; rfl
  | cons m rest ih =>
    intro st hall
    have h1 := hall m (List.mem_cons_self _ _)
    have h2 := fun x hx => hall x (List.mem_cons_of_mem _ hx)
    simp only [convertMessagesLoop]
    rw [convertOneMessage_structured m st h1]
    simp only [ih st h2]
    rfl

/-- Witness for C6: a concrete batch of a `surfaceUpdate` and a
`deleteSurface` message passes through unchanged. -/
theorem c6_structured_passthrough_witness :
    convertMessagesToV08 c6_batch = .ok c6_batch := by
  have h := c6_structured_passthrough
  exact h c6_batch (by
    intro m hm
    simp only [c6_batch, List.mem_cons, List.not_mem_nil, or_false] at hm
    rcases hm with rfl | rfl <;> rfl)

/-- C7: table decomposition of `{"type":"table","columns":["A","B"],
"rows":[["1","2"]]}` produces, in order, a text component "A │ B", a
divider, a text component "1 │ 2", and a `Column` (vertical stack) whose
ordered child-id list references exactly those three components in that
order and which is the returned root. -/
theorem c7_table_decomposition :
    extractComponents c7input none 0 =
      .ok ([c7_header, c7_divider, c7_row, c7_column], "c_1", 4) := by
  rw [extractComponents.eq_def]
  rfl

/-- C8: conversion is not exception-free — a freeform table whose `columns`
value is the number 5 drives `rawCols.map` into a `TypeError` that
propagates out of `convertMessagesToV08`, and a JSONL line holding the valid
JSON `5` (a primitive) drives the `in` operator inside `isV08Message` into a
`TypeError` that propagates out of `convertJsonlToV08`. -/
theorem c8_conversion_raises :
    convertMessagesToV08 [c8_poisonTableMsg] = .error .typeError ∧
    convertJsonlToV08 c8_parse "5" = .error .typeError := by
  constructor
  · have h : extractComponents [("type", JVal.jstr "table"), ("columns", JVal.jnum 5)] none 0 =
        Except.error JsErr.typeError := by
      rw [extractComponents.eq_def]; rfl
    simp [convertMessagesToV08, convertMessagesLoop, convertOneMessage, c8_poisonTableMsg,
      isV08Message, V08_ACTION_KEYS, jlookup, jsPropD, isCreateSurfaceStr, jsTruthyOpt,
      jsObjFields, h, bind, Except.bind, pure, Except.pure]
  · rfl
